import Mathlib

/-!
Verification of the asynchronous WebSocket echo server
(`src/Sources/main.cpp`, Boost.Beast-based).

The program is shallowly embedded as pure step functions:

* a `session` is a state machine driven by completion events
  (`handshakeDone`, `readDone`, `writeDone`); each handler of the C++
  class `session` (`on_accept`, `on_read`, `on_write`) becomes a Lean
  function from the session state and the completion's error code to
  the new state, the list of asynchronous operations it issues, and
  the log lines it emits via `fail`;
* the `listener`'s constructor, `run` and `on_accept` become functions
  of the transport error codes the environment delivers;
* `main` becomes a function of `argc`, the parsed thread count, and
  the listener-setup error codes.

Machine-level aspects (socket descriptors, the io_context scheduler)
are abstracted: the environment supplies each completion's outcome as
an `ErrorCode`, exactly the information the handlers branch on.
-/

namespace EchoServer

/-- A transport error code, as tested by the handlers: `.ok` is the
zero (success) code, `.closed` is `websocket::error::closed`, and
`.other n` is any other nonzero code. `if (ec)` in the C++ source is
`ec.isErr` here. -/
inductive ErrorCode
  | ok
  | closed
  | other (n : Nat)
deriving DecidableEq, Repr

/-- `if (ec)` in the source: true exactly for nonzero codes. -/
def ErrorCode.isErr : ErrorCode → Bool
  | .ok => false
  | _ => true

/-- One line written by the free function `fail(ec, what)`:
`std::cerr << what << ": " << ec.message() << "\n"`. We record the
operation label and the error code it formats. -/
structure LogEntry where
  what : String
  ec : ErrorCode
deriving DecidableEq, Repr

/-- `fail(ec, what)` produces one log entry. -/
def fail (ec : ErrorCode) (what : String) : LogEntry := ⟨what, ec⟩

/-- The asynchronous operations a session can issue on its websocket
stream: the websocket accept (handshake), a message read into the
buffer, and a message write of given bytes tagged text or binary. -/
inductive Op
  | handshake
  | read
  | write (bytes : List Nat) (isText : Bool)
deriving DecidableEq, Repr

/-- The control phase of a session, i.e. which asynchronous operation
is currently outstanding (the C++ state machine is implicit in which
completion handler is pending; we make it explicit). `closed` means no
operation is outstanding and none will be issued. -/
inductive Phase
  | handshaking
  | reading
  | writing
  | closed
deriving DecidableEq, Repr

/-- The state of one `session` object: its phase, the contents of
`_buffer` (a byte list), the protocol layer's `got_text()` flag for
the last message read, and the stream's outgoing-message text flag set
by `_ws.text(...)`. -/
structure SessionSt where
  phase : Phase
  buffer : List Nat
  gotText : Bool
  textFlag : Bool
deriving DecidableEq, Repr

/-- The outcome of running one completion handler: the new session
state, the operations it issued, and the log lines it emitted. -/
structure StepOut where
  st : SessionSt
  ops : List Op
  logs : List LogEntry
deriving DecidableEq, Repr

/-- `session::run()`: set the timeout/decorator options and issue the
asynchronous websocket handshake. The fresh session (built from the
accepted socket) has an empty buffer; Beast's outgoing-message type
defaults to text. -/
def sessionRun : SessionSt × List Op :=
  (⟨.handshaking, [], false, true⟩, [.handshake])

/-- The session state right after `run()`, with the handshake
outstanding. -/
def sessionInit : SessionSt := sessionRun.1

/-- `session::on_accept(ec)`: on handshake failure, `fail(ec,
"accept")` and return (no further operation, the session is released);
on success, `do_read()` issues the first message read. -/
def session.on_accept (s : SessionSt) (ec : ErrorCode) : StepOut :=
  if ec.isErr then
    ⟨{ s with phase := .closed }, [], [fail ec "accept"]⟩
  else
    ⟨{ s with phase := .reading }, [.read], []⟩

/-- `session::on_read(ec, bytes_transferred)`. On success the protocol
layer has appended the received message to `_buffer` and recorded
whether it was text (`got_text()`); the completion event carries those.
If `ec == websocket::error::closed` the handler returns silently.
Otherwise, if `ec` is any other failure it calls `fail(ec, "read")` but
does NOT return: control falls through to the echo, which sets
`_ws.text(_ws.got_text())` and issues `async_write(_buffer.data())`. -/
def session.on_read (s : SessionSt) (ec : ErrorCode) (bytes : List Nat)
    (isText : Bool) : StepOut :=
  let s := if ec = .ok then
    { s with buffer := s.buffer ++ bytes, gotText := isText } else s
  if ec = .closed then
    ⟨{ s with phase := .closed }, [], []⟩
  else
    let logs := if ec.isErr then [fail ec "read"] else []
    let s := { s with textFlag := s.gotText }
    ⟨{ s with phase := .writing }, [.write s.buffer s.textFlag], logs⟩

/-- `session::on_write(ec, bytes_transferred)`: on failure, `fail(ec,
"write")` and return; on success, `_buffer.consume(_buffer.size())`
(drop all buffered bytes) and `do_read()` issues the next read. -/
def session.on_write (s : SessionSt) (ec : ErrorCode) : StepOut :=
  if ec.isErr then
    ⟨{ s with phase := .closed }, [], [fail ec "write"]⟩
  else
    let s := { s with buffer := s.buffer.drop s.buffer.length }
    ⟨{ s with phase := .reading }, [.read], []⟩

/-- A completion event delivered by the execution substrate: the
outcome of the one operation the session had outstanding. A successful
read also delivers the message bytes and its text/binary kind. -/
inductive Event
  | handshakeDone (ec : ErrorCode)
  | readDone (ec : ErrorCode) (bytes : List Nat) (isText : Bool)
  | writeDone (ec : ErrorCode)
deriving DecidableEq, Repr

/-- Dispatch a completion event to the handler the session has
pending. An event that does not match the outstanding operation (or
arrives when the session is closed) cannot occur and changes nothing;
valid traces (`validTrace`) exclude it. -/
def sessionStep (s : SessionSt) (e : Event) : StepOut :=
  match s.phase, e with
  | .handshaking, .handshakeDone ec => session.on_accept s ec
  | .reading, .readDone ec bytes isText => session.on_read s ec bytes isText
  | .writing, .writeDone ec => session.on_write s ec
  | _, _ => ⟨s, [], []⟩

/-- Whether an event is the completion of the operation outstanding in
the given phase. -/
def eventMatches : Phase → Event → Bool
  | .handshaking, .handshakeDone _ => true
  | .reading, .readDone _ _ _ => true
  | .writing, .writeDone _ => true
  | _, _ => false

/-- A trace of completion events is valid from a state when each event
completes the operation outstanding at that point. -/
def validTrace (s : SessionSt) : List Event → Bool
  | [] => true
  | e :: es => eventMatches s.phase e && validTrace (sessionStep s e).st es

/-- Run a session through a list of completion events, collecting all
issued operations and log lines in order. -/
def runTrace (s : SessionSt) : List Event → StepOut
  | [] => ⟨s, [], []⟩
  | e :: es =>
    let o := sessionStep s e
    let r := runTrace o.st es
    ⟨r.st, o.ops ++ r.ops, o.logs ++ r.logs⟩

/-- The operations a listener issues on its acceptor: a TCP accept. -/
inductive LOp
  | accept
deriving DecidableEq, Repr

/-- The state of the `tcp::acceptor` as the listener constructor
configures it: which of open / set_option(reuse_address) / bind /
listen have completed successfully. -/
structure AcceptorSt where
  isOpen : Bool
  reuseAddr : Bool
  bound : Bool
  listening : Bool
deriving DecidableEq, Repr

/-- The `listener` constructor: open the acceptor, enable address
reuse, bind, listen — after any failing step it calls `fail` with that
step's label and returns early (the remaining steps are skipped, but
the object is still constructed). The four error codes are the
outcomes the transport delivers for the four calls. -/
def listenerCtor (ecOpen ecSetOpt ecBind ecListen : ErrorCode) :
    AcceptorSt × List LogEntry :=
  let a := AcceptorSt.mk false false false false
  if ecOpen.isErr then (a, [fail ecOpen "open"])
  else
    let a := { a with isOpen := true }
    if ecSetOpt.isErr then (a, [fail ecSetOpt "set_option"])
    else
      let a := { a with reuseAddr := true }
      if ecBind.isErr then (a, [fail ecBind "bind"])
      else
        let a := { a with bound := true }
        if ecListen.isErr then (a, [fail ecListen "listen"])
        else ({ a with listening := true }, [])

/-- `listener::run()` calls `do_accept()`, which unconditionally
issues one asynchronous accept — regardless of how far the constructor
got. -/
def listenerRunOps : List LOp := [LOp.accept]

/-- The outcome of `listener::on_accept`: the operations issued on the
acceptor, the log lines emitted, and the session constructed and
started over the accepted socket, if any (`run()` on a new session
issues its handshake). -/
structure ListenerOut where
  ops : List LOp
  logs : List LogEntry
  newSession : Option (SessionSt × List Op)
deriving DecidableEq, Repr

/-- `listener::on_accept(ec, socket)`: on failure, `fail(ec,
"accept")`; on success, construct a session over the socket and
`run()` it. In either case, `do_accept()` then issues the next accept
— the last statement is outside the if/else. -/
def listener.on_accept (ec : ErrorCode) : ListenerOut :=
  if ec.isErr then
    ⟨[.accept], [fail ec "accept"], none⟩
  else
    ⟨[.accept], [], some sessionRun⟩

/-- Total number of accept operations issued by a listener that ran
and then processed the given sequence of accept completions: one from
`run()`, then those issued by each `on_accept`. -/
def acceptsIssued (ecs : List ErrorCode) : Nat :=
  listenerRunOps.length + (ecs.map (fun ec => (listener.on_accept ec).ops.length)).sum

/-- `EXIT_SUCCESS`. -/
def EXIT_SUCCESS : Nat := 0

/-- `EXIT_FAILURE`. -/
def EXIT_FAILURE : Nat := 1

/-- What `main` observably does: the value it returns (for the
argument-count error path this is the immediate exit status; otherwise
it is the value returned once `ioc.run()` returns), whether the usage
message was printed, whether a listener was constructed, the setup log
lines, the accept operations issued by the listener's `run()`, and how
many extra worker threads were spawned. -/
structure MainOut where
  exitCode : Nat
  usagePrinted : Bool
  listenerCreated : Bool
  logs : List LogEntry
  acceptOps : List LOp
  extraThreads : Nat
deriving DecidableEq, Repr

/-- `main(argc, argv)`: if `argc != 4`, print the usage message and
return `EXIT_FAILURE` before any listener, socket or thread exists.
Otherwise clamp the thread count to at least 1, construct the listener
(with the environment-supplied outcomes for its four setup calls),
call `run()` on it — which issues an accept unconditionally — spawn
`threads - 1` extra workers, run the io_context on this thread too,
and return `EXIT_SUCCESS`. `threadsArg` is `atoi(argv[3])`. -/
def mainFn (argc : Nat) (threadsArg : Int)
    (ecOpen ecSetOpt ecBind ecListen : ErrorCode) : MainOut :=
  if argc ≠ 4 then
    ⟨EXIT_FAILURE, true, false, [], [], 0⟩
  else
    let threads := max 1 threadsArg
    let l := listenerCtor ecOpen ecSetOpt ecBind ecListen
    ⟨EXIT_SUCCESS, false, true, l.2, listenerRunOps, (threads - 1).toNat⟩

/-- The whole process: the listener's acceptor state plus the states
of the sessions it has spawned, indexed by creation order. Sessions
hold no reference to the listener or to each other. -/
structure System where
  acceptor : AcceptorSt
  sessions : List SessionSt
deriving DecidableEq, Repr

/-- Deliver a completion event to session `i` of the system: only that
session's handler runs, returning its issued operations and logs; no
other component is read or written. -/
def sysSessionEvent (sys : System) (i : Nat) (e : Event) :
    System × List Op × List LogEntry :=
  match sys.sessions.get? i with
  | none => (sys, [], [])
  | some s =>
    let o := sessionStep s e
    ({ sys with sessions := sys.sessions.set i o.st }, o.ops, o.logs)

/-! ### Helper lemmas -/

lemma sessionStep_handshaking (s : SessionSt) (h : s.phase = .handshaking)
    (ec : ErrorCode) :
    sessionStep s (.handshakeDone ec) = session.on_accept s ec := by
  obtain ⟨ph, b, g, t⟩ := s
  cases ph <;> simp_all [sessionStep]

lemma sessionStep_reading (s : SessionSt) (h : s.phase = .reading)
    (ec : ErrorCode) (bytes : List Nat) (isText : Bool) :
    sessionStep s (.readDone ec bytes isText) = session.on_read s ec bytes isText := by
  obtain ⟨ph, b, g, t⟩ := s
  cases ph <;> simp_all [sessionStep]

lemma sessionStep_writing (s : SessionSt) (h : s.phase = .writing)
    (ec : ErrorCode) :
    sessionStep s (.writeDone ec) = session.on_write s ec := by
  obtain ⟨ph, b, g, t⟩ := s
  cases ph <;> simp_all [sessionStep]

lemma sessionStep_closed_ops (s : SessionSt) (e : Event) (h : s.phase = .closed) :
    (sessionStep s e).ops = [] := by
  obtain ⟨ph, b, g, t⟩ := s
  rcases e with ec | ⟨ec, bytes, isText⟩ | ec <;> cases ph <;> simp_all [sessionStep]

/-- Invariant: while the handshake is pending or a read is pending,
the buffer is empty (it was never written to, or was fully consumed by
the preceding `on_write`). -/
def BufInv (s : SessionSt) : Prop :=
  s.phase = .handshaking ∨ s.phase = .reading → s.buffer = []

lemma bufInv_step (s : SessionSt) (e : Event) (h : BufInv s) :
    BufInv (sessionStep s e).st := by
  obtain ⟨ph, b, g, t⟩ := s
  rcases e with ec | ⟨ec, bytes, isText⟩ | ec <;> cases ph <;> cases ec <;>
    simp_all [BufInv, sessionStep, session.on_accept, session.on_read,
      session.on_write, ErrorCode.isErr]

lemma bufInv_runTrace (es : List Event) : ∀ s : SessionSt, BufInv s →
    BufInv (runTrace s es).st := by
  induction es with
  | nil => intro s h; exact h
  | cons e es ih => intro s h; exact ih _ (bufInv_step s e h)

/-- The kind of an operation, forgetting its payload. -/
inductive OpKind
  | hs
  | rd
  | wr
deriving DecidableEq, Repr

def Op.kind : Op → OpKind
  | .handshake => .hs
  | .read => .rd
  | .write _ _ => .wr

/-- Which operation kind may be issued right after the given one
completes: after the handshake a read, after a read its echo write,
after a write the next read. -/
def followsKind : OpKind → OpKind → Bool
  | .hs, .rd => true
  | .rd, .wr => true
  | .wr, .rd => true
  | _, _ => false

/-- The issued-operation kinds form a chain in which each operation is
permitted to follow the previous one. -/
def chainOk : OpKind → List OpKind → Bool
  | _, [] => true
  | k, k2 :: rest => followsKind k k2 && chainOk k2 rest

/-- The kind of the operation outstanding in a given phase (`closed`
has none outstanding and admits no further event, so its value is
irrelevant). -/
def phaseKind : Phase → OpKind
  | .handshaking => .hs
  | .reading => .rd
  | .writing => .wr
  | .closed => .hs

lemma runTrace_closed (s : SessionSt) (es : List Event) (hph : s.phase = .closed)
    (hv : validTrace s es = true) : (runTrace s es).ops = [] := by
  cases es with
  | nil => rfl
  | cons e es =>
    exfalso
    simp only [validTrace, Bool.and_eq_true] at hv
    have hm := hv.1
    rw [hph] at hm
    cases e <;> simp [eventMatches] at hm

lemma chain_runTrace (es : List Event) : ∀ s : SessionSt, validTrace s es = true →
    chainOk (phaseKind s.phase) ((runTrace s es).ops.map Op.kind) = true := by
  induction es with
  | nil => intro s _; rfl
  | cons e es ih =>
    intro s hv
    simp only [validTrace, Bool.and_eq_true] at hv
    obtain ⟨hm, hv2⟩ := hv
    obtain ⟨ph, b, g, t⟩ := s
    rcases e with ec | ⟨ec, bytes, isText⟩ | ec <;> cases ph <;>
      simp only [eventMatches] at hm <;> cases ec
    all_goals
      first
      | (have hops := runTrace_closed _ es rfl hv2
         simp_all [runTrace, sessionStep, session.on_accept, session.on_read,
           session.on_write, ErrorCode.isErr, chainOk, followsKind, phaseKind, Op.kind])
      | (have hih := ih _ hv2
         simp_all [runTrace, sessionStep, session.on_accept, session.on_read,
           session.on_write, ErrorCode.isErr, chainOk, followsKind, phaseKind, Op.kind])

lemma step_ops_le_one (s : SessionSt) (e : Event) :
    (sessionStep s e).ops.length ≤ 1 := by
  obtain ⟨ph, b, g, t⟩ := s
  rcases e with ec | ⟨ec, bytes, isText⟩ | ec <;> cases ph <;> cases ec <;>
    simp [sessionStep, session.on_accept, session.on_read, session.on_write,
      ErrorCode.isErr]

lemma get?_set_same {α : Type} (l : List α) (i : Nat) (x y : α)
    (h : l.get? i = some y) : (l.set i x).get? i = some x := by
  induction l generalizing i with
  | nil => cases i <;> exact Option.noConfusion h
  | cons a l ih =>
    cases i with
    | zero => rfl
    | succ n => exact ih n h

lemma get?_set_other {α : Type} (l : List α) (i j : Nat) (x : α)
    (h : j ≠ i) : (l.set i x).get? j = l.get? j := by
  induction l generalizing i j with
  | nil => rfl
  | cons a l ih =>
    cases i with
    | zero =>
      cases j with
      | zero => exact absurd rfl h
      | succ m => rfl
    | succ n =>
      cases j with
      | zero => rfl
      | succ m => exact ih n m (fun hm => h (congrArg Nat.succ hm))

lemma onAccept_ops_len (ec : ErrorCode) : (listener.on_accept ec).ops.length = 1 := by
  cases ec <;> simp [listener.on_accept, ErrorCode.isErr]

lemma acceptsIssued_eq (ecs : List ErrorCode) : acceptsIssued ecs = ecs.length + 1 := by
  induction ecs with
  | nil => rfl
  | cons ec ecs ih =>
    simp only [acceptsIssued, listenerRunOps, List.map_cons, List.sum_cons,
      List.length_cons, List.length_singleton, onAccept_ops_len] at *
    omega

/-! ### Claim theorems -/

/-- Claim C1, counterexample: a read completing with a failure that is
not the expected-closure condition (`.other 1`) is logged, but the
session does not transition to Closed — `on_read` falls through past
`fail(ec, "read")` and issues an echo write, contradicting the claim
that no further read or write operation is issued. -/
theorem read_error_fallthrough_cex :
    (sessionStep ⟨.reading, [], false, true⟩ (.readDone (.other 1) [] false)).logs
        = [fail (.other 1) "read"]
    ∧ (sessionStep ⟨.reading, [], false, true⟩ (.readDone (.other 1) [] false)).ops
        = [Op.write [] false]
    ∧ (sessionStep ⟨.reading, [], false, true⟩ (.readDone (.other 1) [] false)).st.phase
        = .writing
    ∧ ¬((sessionStep ⟨.reading, [], false, true⟩ (.readDone (.other 1) [] false)).ops = []
        ∧ (sessionStep ⟨.reading, [], false, true⟩
            (.readDone (.other 1) [] false)).st.phase = .closed) := by
  refine ⟨rfl, rfl, rfl, fun h => ?_⟩
  exact absurd h.2 (by decide)

/-- Claim C1 as amended: when a read completes with a failure other
than the expected-closure condition, the session logs the failure with
label "read" but does not close; it sets the outgoing frame type from
`got_text()` and issues an echo write of the current buffer contents,
terminating only when a later operation fails. -/
theorem read_error_logs_then_echoes (s : SessionSt) (n : Nat) (bytes : List Nat)
    (isText : Bool) (h : s.phase = .reading) :
    sessionStep s (.readDone (.other n) bytes isText) =
      ⟨{ s with phase := .writing, textFlag := s.gotText },
        [Op.write s.buffer s.gotText], [fail (.other n) "read"]⟩ := by
  rw [sessionStep_reading s h]
  simp [session.on_read, ErrorCode.isErr]

/-- Witness for the amended C1 at a concrete session and error. -/
theorem read_error_logs_then_echoes_witness :
    sessionStep ⟨.reading, [3], true, true⟩ (.readDone (.other 7) [9] false) =
      ⟨⟨.writing, [3], true, true⟩, [Op.write [3] true], [fail (.other 7) "read"]⟩ :=
  read_error_logs_then_echoes ⟨.reading, [3], true, true⟩ 7 [9] false rfl

/-- Claim C2, counterexample: when the acceptor fails to open, the
failure is reported, but `main` still constructs the listener, calls
`run()` — which issues an accept operation — and returns
`EXIT_SUCCESS`, contradicting "never issues any accept operation, and
exits with a non-zero status". -/
theorem setup_failure_cex :
    (mainFn 4 1 (.other 13) .ok .ok .ok).logs = [fail (.other 13) "open"]
    ∧ (mainFn 4 1 (.other 13) .ok .ok .ok).acceptOps = [LOp.accept]
    ∧ (mainFn 4 1 (.other 13) .ok .ok .ok).acceptOps ≠ []
    ∧ (mainFn 4 1 (.other 13) .ok .ok .ok).exitCode = EXIT_SUCCESS :=
  ⟨rfl, rfl, by decide, rfl⟩

/-- Claim C2 as amended: if any of the listener's setup steps (open,
set reuse-address, bind, listen) fails, the failure is reported
exactly once and the remaining setup steps are skipped, but the
process still proceeds: the listener's `run()` issues an accept
operation on the unconfigured acceptor, and `main` returns
`EXIT_SUCCESS` rather than a non-zero status. -/
theorem setup_failure_reported_but_continues (threadsArg : Int)
    (ecOpen ecSetOpt ecBind ecListen : ErrorCode)
    (h : ecOpen.isErr = true ∨ ecSetOpt.isErr = true ∨ ecBind.isErr = true
      ∨ ecListen.isErr = true) :
    (mainFn 4 threadsArg ecOpen ecSetOpt ecBind ecListen).logs.length = 1
    ∧ (mainFn 4 threadsArg ecOpen ecSetOpt ecBind ecListen).acceptOps = [LOp.accept]
    ∧ (mainFn 4 threadsArg ecOpen ecSetOpt ecBind ecListen).exitCode = EXIT_SUCCESS := by
  cases hO : ecOpen.isErr <;> cases hS : ecSetOpt.isErr <;> cases hB : ecBind.isErr <;>
    cases hL : ecListen.isErr <;>
    simp_all [mainFn, listenerCtor, listenerRunOps, EXIT_SUCCESS]

/-- Witness for the amended C2 with a failing bind step. -/
theorem setup_failure_reported_but_continues_witness :
    (mainFn 4 2 .ok .ok (.other 98) .ok).logs.length = 1
    ∧ (mainFn 4 2 .ok .ok (.other 98) .ok).acceptOps = [LOp.accept]
    ∧ (mainFn 4 2 .ok .ok (.other 98) .ok).exitCode = EXIT_SUCCESS :=
  setup_failure_reported_but_continues 2 .ok .ok (.other 98) .ok
    (Or.inr (Or.inr (Or.inl rfl)))

/-- Claim C3: in any reachable state where a read is pending, the
buffer is empty, so when the read completes successfully with a
message, the echo write issued carries exactly the received bytes and
the stream's outgoing type equals the received message's text/binary
kind. -/
theorem echo_preserves_bytes_and_type (es : List Event) (bytes : List Nat)
    (isText : Bool) (_hv : validTrace sessionInit es = true)
    (hr : (runTrace sessionInit es).st.phase = .reading) :
    (runTrace sessionInit es).st.buffer = []
    ∧ (sessionStep (runTrace sessionInit es).st (.readDone .ok bytes isText)).ops
        = [Op.write bytes isText]
    ∧ (sessionStep (runTrace sessionInit es).st
        (.readDone .ok bytes isText)).st.textFlag = isText := by
  have hbuf : (runTrace sessionInit es).st.buffer = [] :=
    bufInv_runTrace es sessionInit (fun _ => rfl) (Or.inr hr)
  refine ⟨hbuf, ?_, ?_⟩ <;>
    rw [sessionStep_reading _ hr] <;>
    simp [session.on_read, hbuf]

/-- Witness for C3: after a successful handshake, one full echo cycle,
and a successful read of `[7, 8]` tagged binary, the write issued is
exactly `[7, 8]` tagged binary. -/
theorem echo_preserves_bytes_and_type_witness :
    (runTrace sessionInit [Event.handshakeDone .ok, Event.readDone .ok [1] true,
        Event.writeDone .ok]).st.buffer = []
    ∧ (sessionStep (runTrace sessionInit [Event.handshakeDone .ok,
        Event.readDone .ok [1] true, Event.writeDone .ok]).st
        (.readDone .ok [7, 8] false)).ops = [Op.write [7, 8] false]
    ∧ (sessionStep (runTrace sessionInit [Event.handshakeDone .ok,
        Event.readDone .ok [1] true, Event.writeDone .ok]).st
        (.readDone .ok [7, 8] false)).st.textFlag = false :=
  echo_preserves_bytes_and_type
    [Event.handshakeDone .ok, Event.readDone .ok [1] true, Event.writeDone .ok]
    [7, 8] false (by decide) (by decide)

/-- Claim C4: a read completing with the connection-closed condition
terminates the session silently — no log line, no operation issued,
phase Closed — and from the closed state no event makes it issue any
further operation. -/
theorem read_closed_silent (s : SessionSt) (bytes : List Nat) (isText : Bool)
    (e2 : Event) (h : s.phase = .reading) :
    (sessionStep s (.readDone .closed bytes isText)).logs = []
    ∧ (sessionStep s (.readDone .closed bytes isText)).ops = []
    ∧ (sessionStep s (.readDone .closed bytes isText)).st.phase = .closed
    ∧ (sessionStep (sessionStep s (.readDone .closed bytes isText)).st e2).ops = [] := by
  rw [sessionStep_reading s h]
  refine ⟨by simp [session.on_read], by simp [session.on_read],
    by simp [session.on_read], ?_⟩
  exact sessionStep_closed_ops _ e2 (by simp [session.on_read])

/-- Witness for C4 at a concrete session. -/
theorem read_closed_silent_witness :
    (sessionStep ⟨.reading, [], true, true⟩ (.readDone .closed [] false)).logs = []
    ∧ (sessionStep ⟨.reading, [], true, true⟩ (.readDone .closed [] false)).ops = []
    ∧ (sessionStep ⟨.reading, [], true, true⟩
        (.readDone .closed [] false)).st.phase = .closed
    ∧ (sessionStep (sessionStep ⟨.reading, [], true, true⟩
        (.readDone .closed [] false)).st (.readDone .ok [1] true)).ops = [] :=
  read_closed_silent ⟨.reading, [], true, true⟩ [] false (.readDone .ok [1] true) rfl

/-- Claim C5: per-session total ordering. `run()` issues exactly the
handshake; over any valid trace of completion events, the kinds of the
operations issued after it form a chain in which a read follows the
handshake, each echo write follows the read that completed, and each
next read follows the completed write (so reads and writes alternate
and nothing is issued ahead of the previous step's completion); and
every completion handler issues at most one operation, so at most one
operation is ever outstanding per session. -/
theorem session_operations_totally_ordered (es : List Event) (s : SessionSt)
    (e : Event) (hv : validTrace sessionInit es = true) :
    sessionRun.2 = [Op.handshake]
    ∧ chainOk OpKind.hs ((runTrace sessionInit es).ops.map Op.kind) = true
    ∧ (sessionStep s e).ops.length ≤ 1 := by
  exact ⟨rfl, chain_runTrace es sessionInit hv, step_ops_le_one s e⟩

/-- Witness for C5 on a concrete two-message trace. -/
theorem session_operations_totally_ordered_witness :
    sessionRun.2 = [Op.handshake]
    ∧ chainOk OpKind.hs ((runTrace sessionInit [Event.handshakeDone .ok,
        Event.readDone .ok [104] true, Event.writeDone .ok,
        Event.readDone .ok [0, 0] false, Event.writeDone .ok]).ops.map Op.kind) = true
    ∧ (sessionStep ⟨.writing, [5], true, true⟩ (.writeDone .ok)).ops.length ≤ 1 :=
  session_operations_totally_ordered
    [Event.handshakeDone .ok, Event.readDone .ok [104] true, Event.writeDone .ok,
      Event.readDone .ok [0, 0] false, Event.writeDone .ok]
    ⟨.writing, [5], true, true⟩ (.writeDone .ok) (by decide)

/-- Claim C6: `listener::on_accept` issues exactly one next accept
regardless of the completion's outcome — on failure it logs with label
"accept", on success it constructs and runs a new session — and after
any number of processed accept completions the number of accepts
issued exceeds the number completed by exactly one, i.e. exactly one
accept is outstanding at all times. -/
theorem accept_loop_unconditional (ec : ErrorCode) (ecs : List ErrorCode) :
    (listener.on_accept ec).ops = [LOp.accept]
    ∧ (listener.on_accept ec).logs = (if ec.isErr then [fail ec "accept"] else [])
    ∧ (listener.on_accept ec).newSession = (if ec.isErr then none else some sessionRun)
    ∧ acceptsIssued ecs = ecs.length + 1 := by
  refine ⟨?_, ?_, ?_, acceptsIssued_eq ecs⟩ <;>
    cases hc : ec.isErr <;> simp [listener.on_accept, hc]

/-- Claim C7: delivering a failed-handshake completion to one session
of the system logs it with label "accept", issues no application-level
read or write, closes exactly that session, and leaves the listener's
acceptor state and every other session untouched; from the closed
state no event produces any further operation. -/
theorem handshake_failure_isolated (sys : System) (i j : Nat) (s : SessionSt)
    (ec : ErrorCode) (e2 : Event)
    (hget : sys.sessions.get? i = some s) (hph : s.phase = .handshaking)
    (herr : ec.isErr = true) (hj : j ≠ i) :
    (sysSessionEvent sys i (.handshakeDone ec)).2.2 = [fail ec "accept"]
    ∧ (sysSessionEvent sys i (.handshakeDone ec)).2.1 = []
    ∧ ((sysSessionEvent sys i (.handshakeDone ec)).1.sessions.get? i).map
        SessionSt.phase = some .closed
    ∧ (sysSessionEvent sys i (.handshakeDone ec)).1.acceptor = sys.acceptor
    ∧ (sysSessionEvent sys i (.handshakeDone ec)).1.sessions.get? j
        = sys.sessions.get? j
    ∧ (sessionStep (sessionStep s (.handshakeDone ec)).st e2).ops = [] := by
  have hacc : sessionStep s (.handshakeDone ec) =
      ⟨{ s with phase := .closed }, [], [fail ec "accept"]⟩ := by
    rw [sessionStep_handshaking s hph ec]
    simp [session.on_accept, herr]
  have hsys : sysSessionEvent sys i (.handshakeDone ec) =
      ({ sys with sessions := sys.sessions.set i { s with phase := .closed } },
        [], [fail ec "accept"]) := by
    unfold sysSessionEvent
    rw [hget]
    show ({ sys with
        sessions := sys.sessions.set i (sessionStep s (Event.handshakeDone ec)).st },
      (sessionStep s (Event.handshakeDone ec)).ops,
      (sessionStep s (Event.handshakeDone ec)).logs) = _
    rw [hacc]
  rw [hsys]
  refine ⟨rfl, rfl, ?_, rfl, ?_, ?_⟩
  · rw [get?_set_same sys.sessions i _ s hget]
    rfl
  · exact get?_set_other sys.sessions i j _ hj
  · rw [hacc]
    exact sessionStep_closed_ops _ e2 rfl

/-- Witness for C7 on a two-session system. -/
theorem handshake_failure_isolated_witness :
    (sysSessionEvent ⟨⟨true, true, true, true⟩, [⟨.handshaking, [], false, true⟩,
        ⟨.reading, [], true, true⟩]⟩ 0 (.handshakeDone (.other 3))).2.2
      = [fail (.other 3) "accept"]
    ∧ (sysSessionEvent ⟨⟨true, true, true, true⟩, [⟨.handshaking, [], false, true⟩,
        ⟨.reading, [], true, true⟩]⟩ 0 (.handshakeDone (.other 3))).2.1 = []
    ∧ ((sysSessionEvent ⟨⟨true, true, true, true⟩, [⟨.handshaking, [], false, true⟩,
        ⟨.reading, [], true, true⟩]⟩ 0 (.handshakeDone (.other 3))).1.sessions.get? 0).map
        SessionSt.phase = some .closed
    ∧ (sysSessionEvent ⟨⟨true, true, true, true⟩, [⟨.handshaking, [], false, true⟩,
        ⟨.reading, [], true, true⟩]⟩ 0 (.handshakeDone (.other 3))).1.acceptor
      = (⟨⟨true, true, true, true⟩, [⟨.handshaking, [], false, true⟩,
        ⟨.reading, [], true, true⟩]⟩ : System).acceptor
    ∧ (sysSessionEvent ⟨⟨true, true, true, true⟩, [⟨.handshaking, [], false, true⟩,
        ⟨.reading, [], true, true⟩]⟩ 0 (.handshakeDone (.other 3))).1.sessions.get? 1
      = (⟨⟨true, true, true, true⟩, [⟨.handshaking, [], false, true⟩,
        ⟨.reading, [], true, true⟩]⟩ : System).sessions.get? 1
    ∧ (sessionStep (sessionStep ⟨.handshaking, [], false, true⟩
        (.handshakeDone (.other 3))).st (.readDone .ok [1] true)).ops = [] :=
  handshake_failure_isolated
    ⟨⟨true, true, true, true⟩, [⟨.handshaking, [], false, true⟩,
      ⟨.reading, [], true, true⟩]⟩ 0 1 ⟨.handshaking, [], false, true⟩
    (.other 3) (.readDone .ok [1] true) rfl rfl rfl (by decide)

/-- Claim C8: a successful echo-write completion first empties the
receive buffer (`consume(size)` drops every buffered byte) and then
issues the next read; consequently the echo following the next
successful read carries exactly that message's bytes and nothing
else. -/
theorem write_success_clears_buffer_then_reads (s : SessionSt) (bytes : List Nat)
    (isText : Bool) (h : s.phase = .writing) :
    (sessionStep s (.writeDone .ok)).st.buffer = []
    ∧ (sessionStep s (.writeDone .ok)).ops = [Op.read]
    ∧ (sessionStep s (.writeDone .ok)).st.phase = .reading
    ∧ (sessionStep (sessionStep s (.writeDone .ok)).st
        (.readDone .ok bytes isText)).ops = [Op.write bytes isText] := by
  rw [sessionStep_writing s h]
  refine ⟨by simp [session.on_write, ErrorCode.isErr],
    by simp [session.on_write, ErrorCode.isErr],
    by simp [session.on_write, ErrorCode.isErr], ?_⟩
  rw [sessionStep_reading _ (by simp [session.on_write, ErrorCode.isErr])]
  simp [session.on_write, session.on_read, ErrorCode.isErr]

/-- Witness for C8 at a concrete session holding an echoed message. -/
theorem write_success_clears_buffer_then_reads_witness :
    (sessionStep ⟨.writing, [5, 6], true, true⟩ (.writeDone .ok)).st.buffer = []
    ∧ (sessionStep ⟨.writing, [5, 6], true, true⟩ (.writeDone .ok)).ops = [Op.read]
    ∧ (sessionStep ⟨.writing, [5, 6], true, true⟩ (.writeDone .ok)).st.phase = .reading
    ∧ (sessionStep (sessionStep ⟨.writing, [5, 6], true, true⟩ (.writeDone .ok)).st
        (.readDone .ok [9] false)).ops = [Op.write [9] false] :=
  write_success_clears_buffer_then_reads ⟨.writing, [5, 6], true, true⟩ [9] false rfl

/-- Claim C9: if `argc != 4` (three user arguments plus the program
name), `main` prints the usage message and returns `EXIT_FAILURE`
without creating a listener, issuing any accept, or spawning any
worker thread. -/
theorem bad_arg_count_fails_fast (argc : Nat) (threadsArg : Int)
    (e1 e2 e3 e4 : ErrorCode) (h : argc ≠ 4) :
    mainFn argc threadsArg e1 e2 e3 e4 =
      ⟨EXIT_FAILURE, true, false, [], [], 0⟩ := by
  simp [mainFn, h]

/-- Witness for C9 at `argc = 2`. -/
theorem bad_arg_count_fails_fast_witness :
    mainFn 2 1 .ok .ok .ok .ok = ⟨EXIT_FAILURE, true, false, [], [], 0⟩ :=
  bad_arg_count_fails_fast 2 1 .ok .ok .ok .ok (by decide)

/-- Claim C10: a failed WebSocket handshake in a session and a failed
TCP accept in the listener are both reported through `fail` with the
identical operation label "accept", so their log output is
indistinguishable. -/
theorem handshake_and_accept_share_label (s : SessionSt) (ec : ErrorCode)
    (hph : s.phase = .handshaking) (herr : ec.isErr = true) :
    (sessionStep s (.handshakeDone ec)).logs = [fail ec "accept"]
    ∧ (listener.on_accept ec).logs = [fail ec "accept"]
    ∧ (sessionStep s (.handshakeDone ec)).logs = (listener.on_accept ec).logs := by
  rw [sessionStep_handshaking s hph]
  simp [session.on_accept, listener.on_accept, herr]

/-- Witness for C10 at a concrete failed handshake/accept code. -/
theorem handshake_and_accept_share_label_witness :
    (sessionStep ⟨.handshaking, [], false, true⟩ (.handshakeDone (.other 4))).logs
      = [fail (.other 4) "accept"]
    ∧ (listener.on_accept (.other 4)).logs = [fail (.other 4) "accept"]
    ∧ (sessionStep ⟨.handshaking, [], false, true⟩ (.handshakeDone (.other 4))).logs
      = (listener.on_accept (.other 4)).logs :=
  handshake_and_accept_share_label ⟨.handshaking, [], false, true⟩ (.other 4) rfl rfl

end EchoServer
